import Mathlib

/-!
Shallow embedding of the MSC therapy planner (`src/app.py`) and proofs of the
spec's claims about it.  The planner's arithmetic (Python floats on exactly
representable values) is modelled over `ℚ`; the plotting code's exponential
interpolation is modelled over `ℝ`.
-/

/-! ## Constants (src/app.py lines 7-13) -/

def SEEDING_DENSITY : ℚ := 50000

def GROWTH_RATE : ℚ := 1/2

def MIN_PASSAGE1_DAYS : ℕ := 14

def ADDITIONAL_PASSAGE_DAYS : ℕ := 7

def MAX_PASSAGES : ℕ := 3

def SAFETY_FACTOR : ℚ := 6/5

def PLASMA_PERCENTAGE : ℚ := 3/20

/-! ## Equipment catalog (src/app.py lines 24-57) -/

/-- One entry of `FLASK_TYPES`: surface (cm²), media volume per change (mL),
cells seeded per flask, cells per flask at confluency. -/
structure FlaskData where
  surface : ℚ
  media : ℚ
  initial_cells : ℚ
  max_cells : ℚ
deriving DecidableEq

def flaskT25 : FlaskData := ⟨25, 5, 25 * 50000, 25 * 200000⟩

def flaskT75 : FlaskData := ⟨75, 15, 75 * 50000, 75 * 200000⟩

def flaskT175 : FlaskData := ⟨175, 30, 175 * 50000, 175 * 200000⟩

/-- `safe_get(FLASK_TYPES, key)` (lines 59-61, 70): dictionary lookup with the
`Default` entry (same values as T75) as fallback for unknown keys. -/
def flaskLookup (key : String) : FlaskData :=
  if key = "T25" then flaskT25
  else if key = "T75" then flaskT75
  else if key = "T175" then flaskT175
  else flaskT75

/-- `safe_get(SEPARATOR_YIELD, key)` (lines 24-28, 69): cells per mL, with the
`Default` entry (1.5e6) as fallback. -/
def sepYieldLookup (key : String) : ℚ :=
  if key = "Haemonetics" then 1000000
  else if key = "Spectra Optia" then 2000000
  else 1500000

/-! ## Input clamping (src/app.py lines 65-66) -/

def clampWeight (w : ℚ) : ℚ := max 30 (min w 120)

def clampDose (d : ℚ) : ℚ := max (1/2) (min d 2)

/-! ## Per-candidate passage simulation (src/app.py lines 87-120) -/

/-- Passage-1 yield of `N0` flasks grown to confluency (line 89). -/
def p1Of (fl : FlaskData) (N0 : ℕ) : ℚ := (N0 : ℚ) * fl.max_cells

/-- Flask count for the next passage (lines 102, 114):
`math.ceil((prev_yield / initial_cells_per_flask) * SAFETY_FACTOR)`. -/
def nextFlasks (fl : FlaskData) (prev : ℚ) : ℤ :=
  ⌈(prev / fl.initial_cells) * SAFETY_FACTOR⌉

/-- Yield of `n` flasks grown to confluency (lines 103, 115). -/
def yieldOf (fl : FlaskData) (n : ℤ) : ℚ := (n : ℚ) * fl.max_cells

/-- The loop-body state for one candidate `N0`: passage yields and the
passage-2/3 flask counts, exactly as the break branches leave them
(lines 91-120): a break at passage 1 leaves `flasks_p2 = flasks_p3 = 0` and
both later yields equal to `passage1_yield`; a break at passage 2 leaves
`flasks_p3 = 0` and `passage3_yield = passage2_yield`. -/
structure SimStep where
  p1 : ℚ
  f2 : ℤ
  p2 : ℚ
  f3 : ℤ
  p3 : ℚ
deriving DecidableEq

/-- Simulate one candidate `N0` through up to `MAX_PASSAGES` passages
(loop body, lines 88-120; the not-found recomputation at lines 124-127
produces the same values as this simulation at `N0 = 200`). -/
def simulate (fl : FlaskData) (total : ℚ) (N0 : ℕ) : SimStep :=
  if total ≤ p1Of fl N0 then
    ⟨p1Of fl N0, 0, p1Of fl N0, 0, p1Of fl N0⟩
  else if total ≤ yieldOf fl (nextFlasks fl (p1Of fl N0)) then
    ⟨p1Of fl N0, nextFlasks fl (p1Of fl N0),
      yieldOf fl (nextFlasks fl (p1Of fl N0)), 0,
      yieldOf fl (nextFlasks fl (p1Of fl N0))⟩
  else
    ⟨p1Of fl N0, nextFlasks fl (p1Of fl N0),
      yieldOf fl (nextFlasks fl (p1Of fl N0)),
      nextFlasks fl (yieldOf fl (nextFlasks fl (p1Of fl N0))),
      yieldOf fl (nextFlasks fl (yieldOf fl (nextFlasks fl (p1Of fl N0))))⟩

/-- Candidate `N0` meets the target within `MAX_PASSAGES` passages: this is
the loop's `found` condition for one candidate (any of the three break
conditions fires, equivalently the final simulated yield reaches the target). -/
def reaches (fl : FlaskData) (total : ℚ) (N0 : ℕ) : Prop :=
  total ≤ (simulate fl total N0).p3

instance reachesDecidable (fl : FlaskData) (total : ℚ) (N0 : ℕ) :
    Decidable (reaches fl total N0) :=
  inferInstanceAs (Decidable (total ≤ (simulate fl total N0).p3))

/-- The `for N0 in range(1, 201)` search (line 87) with early exit on the
first candidate that reaches the target, as fuel-based recursion starting at
`n` with `fuel` candidates left. -/
def searchAux (fl : FlaskData) (total : ℚ) : ℕ → ℕ → Option ℕ
  | 0, _ => none
  | fuel + 1, n =>
      if reaches fl total n then some n else searchAux fl total fuel (n + 1)

/-- The whole search over candidates 1..200. -/
def searchN0 (fl : FlaskData) (total : ℚ) : Option ℕ :=
  searchAux fl total 200 1

/-- Chosen initial flask count and its simulation: the first successful
candidate, or 200 simulated through all passages when the search fails
(lines 122-127). -/
def planFor (fl : FlaskData) (total : ℚ) : ℕ × SimStep :=
  ((searchN0 fl total).getD 200, simulate fl total ((searchN0 fl total).getD 200))

/-! ## The full calculation (src/app.py lines 63-168) -/

/-- The dictionary returned by `calculate_msc_therapy` (lines 153-168).
The Python dict carries the same number under both `passages` and
`passages_used`; it is one field here. -/
structure Results where
  pbsc_ml : ℚ
  initial_flasks : ℕ
  passages_used : ℕ
  total_days : ℕ
  total_media : ℚ
  initial_cells : ℚ
  target_cells : ℚ
  passage1_yield : ℚ
  flasks_p2 : ℤ
  passage2_yield : ℚ
  flasks_p3 : ℤ
  passage3_yield : ℚ
  plasma_volume : ℤ
deriving DecidableEq

/-- The keys of the dictionary literal returned at lines 153-168, in source
order. -/
def resultKeys : List String :=
  ["pbsc_ml", "initial_flasks", "passages", "total_days", "total_media",
   "initial_cells", "target_cells", "passage1_yield", "flasks_p2",
   "passage2_yield", "flasks_p3", "passage3_yield", "plasma_volume",
   "passages_used"]

/-- `calculate_msc_therapy` after the two catalog lookups: the body of
lines 63-168 with `sep_yield` and `flask_data` already resolved.  The
`try/except` around `total_cells / sep_yield` (lines 76-79) catches Python's
`ZeroDivisionError` and substitutes 50, so the zero-divisor case maps to the
literal 50 here. -/
def calc_core (weight desired_dose sep_yield : ℚ) (fl : FlaskData)
    (plasma_priming : Bool) : Results :=
  let total_cells := clampDose desired_dose * clampWeight weight * 1000000
  let pbsc_ml := max 50 (if sep_yield = 0 then 50 else total_cells / sep_yield)
  let n0 := (planFor fl total_cells).1
  let s := (planFor fl total_cells).2
  let passages_used := if total_cells ≤ s.p1 then 1
    else if total_cells ≤ s.p2 then 2 else 3
  { pbsc_ml := pbsc_ml
    initial_flasks := n0
    passages_used := passages_used
    total_days := MIN_PASSAGE1_DAYS + (passages_used - 1) * ADDITIONAL_PASSAGE_DAYS
    total_media := (n0 : ℚ) * fl.media * ((4 + (passages_used - 1) * 2 : ℕ) : ℚ)
    initial_cells := fl.initial_cells
    target_cells := total_cells
    passage1_yield := s.p1
    flasks_p2 := s.f2
    passage2_yield := if 2 ≤ passages_used then s.p2 else s.p1
    flasks_p3 := s.f3
    passage3_yield := if 3 ≤ passages_used then s.p3 else s.p2
    plasma_volume :=
      if plasma_priming then ⌈(n0 : ℚ) * fl.media * PLASMA_PERCENTAGE⌉ else 0 }

/-- `calculate_msc_therapy(weight, desired_dose, separator, flask_type,
plasma_priming)` (line 63). -/
def calculate_msc_therapy (weight desired_dose : ℚ)
    (separator flask_type : String) (plasma_priming : Bool) : Results :=
  calc_core weight desired_dose (sepYieldLookup separator)
    (flaskLookup flask_type) plasma_priming

/-! ## Growth-curve segments (src/app.py lines 170-216)

`plot_growth_curve` builds three exponential segments between per-passage
start and end yields.  The segment sample values (the `growth1/2/3` arrays,
lines 204, 208, 212) are modelled as functions of time. -/

/-- `start1 = N0 * initial_cells if initial_cells > 0 else 1` (line 186). -/
def start1 (r : Results) : ℚ :=
  if 0 < r.initial_cells then (r.initial_flasks : ℚ) * r.initial_cells else 1

/-- `end1 = passage1_yield if passage1_yield > 0 else start1` (line 187). -/
def end1 (r : Results) : ℚ :=
  if 0 < r.passage1_yield then r.passage1_yield else start1 r

/-- `start2 = flasks_p2 * initial_cells if initial_cells > 0 else end1`
(line 189). -/
def start2 (r : Results) : ℚ :=
  if 0 < r.initial_cells then (r.flasks_p2 : ℚ) * r.initial_cells else end1 r

/-- `end2 = passage2_yield if passage2_yield > 0 else start2` (line 190). -/
def end2 (r : Results) : ℚ :=
  if 0 < r.passage2_yield then r.passage2_yield else start2 r

/-- `start3 = flasks_p3 * initial_cells if initial_cells > 0 else end2`
(line 192). -/
def start3 (r : Results) : ℚ :=
  if 0 < r.initial_cells then (r.flasks_p3 : ℚ) * r.initial_cells else end2 r

/-- `end3 = passage3_yield if passage3_yield > 0 else start3` (line 193). -/
def end3 (r : Results) : ℚ :=
  if 0 < r.passage3_yield then r.passage3_yield else start3 r

/-- Segment rate (lines 202-203 etc.):
`factor = end/start if start > 0 else 1`;
`rate = log(factor)/duration if duration > 0 else 0`. -/
noncomputable def segRate (s e d : ℚ) : ℝ :=
  if 0 < d then Real.log (if 0 < s then (e : ℝ) / (s : ℝ) else 1) / (d : ℝ)
  else 0

/-- Sample of the first segment at absolute time `t`
(`growth1 = start1 * exp(rate1 * t1)`, line 204). -/
noncomputable def growth1 (r : Results) (t : ℝ) : ℝ :=
  (start1 r : ℝ) *
    Real.exp (segRate (start1 r) (end1 r) (MIN_PASSAGE1_DAYS : ℚ) * t)

/-- Sample of the second segment at absolute time `t`
(`growth2 = start2 * exp(rate2 * (t2 - MIN_PASSAGE1_DAYS))`, line 208). -/
noncomputable def growth2 (r : Results) (t : ℝ) : ℝ :=
  (start2 r : ℝ) *
    Real.exp (segRate (start2 r) (end2 r) (ADDITIONAL_PASSAGE_DAYS : ℚ) *
      (t - (MIN_PASSAGE1_DAYS : ℝ)))

/-- Sample of the third segment at absolute time `t` (line 212). -/
noncomputable def growth3 (r : Results) (t : ℝ) : ℝ :=
  (start3 r : ℝ) *
    Real.exp (segRate (start3 r) (end3 r) (ADDITIONAL_PASSAGE_DAYS : ℚ) *
      (t - ((MIN_PASSAGE1_DAYS : ℝ) + (ADDITIONAL_PASSAGE_DAYS : ℝ))))

/-! ## Spec-side definition for the medium refinement claim -/

/-- Modelled from the spec: `total_medium` = Σ over used passages of that
passage's vessel count times the vessel's medium volume per change times that
passage's number of medium changes (4 for passage 1, 2 for each later
passage).  Stated from the spec's words to be compared with the source's
`total_media`. -/
def specTotalMedia (r : Results) (fl : FlaskData) : ℚ :=
  (r.initial_flasks : ℚ) * fl.media * 4
  + (if 2 ≤ r.passages_used then (r.flasks_p2 : ℚ) * fl.media * 2 else 0)
  + (if 3 ≤ r.passages_used then (r.flasks_p3 : ℚ) * fl.media * 2 else 0)

/-- The simulated yield of passage `i` (`i = 1, 2, 3`) for one candidate. -/
def simYield (s : SimStep) (i : ℕ) : ℚ :=
  if i ≤ 1 then s.p1 else if i = 2 then s.p2 else s.p3

/-! ## Basic lemmas about the embedding -/

theorem clampWeight_mem (w : ℚ) : 30 ≤ clampWeight w ∧ clampWeight w ≤ 120 :=
  ⟨le_max_left _ _, max_le (by norm_num) (min_le_right _ _)⟩

theorem clampDose_mem (d : ℚ) : 1/2 ≤ clampDose d ∧ clampDose d ≤ 2 :=
  ⟨le_max_left _ _, max_le (by norm_num) (min_le_right _ _)⟩

/-- The clamped target cell count is positive and at most `2 * 120 * 1e6`. -/
theorem total_cells_bounds (w d : ℚ) :
    0 < clampDose d * clampWeight w * 1000000 ∧
    clampDose d * clampWeight w * 1000000 ≤ 240000000 := by
  obtain ⟨hd1, hd2⟩ := clampDose_mem d
  obtain ⟨hw1, hw2⟩ := clampWeight_mem w
  constructor
  · nlinarith
  · nlinarith

/-- Every catalog entry the lookup can return has positive seeding count,
confluent count strictly above seeding count, confluent count at least the
T25 capacity, and positive media volume. -/
theorem flaskLookup_spec (ft : String) :
    0 < (flaskLookup ft).initial_cells ∧
    (flaskLookup ft).initial_cells < (flaskLookup ft).max_cells ∧
    5000000 ≤ (flaskLookup ft).max_cells ∧
    0 < (flaskLookup ft).media := by
  unfold flaskLookup flaskT25 flaskT75 flaskT175
  split_ifs <;> norm_num

theorem searchAux_some_spec (fl : FlaskData) (tc : ℚ) :
    ∀ fuel n m, searchAux fl tc fuel n = some m →
      n ≤ m ∧ reaches fl tc m ∧ ∀ k, n ≤ k → k < m → ¬ reaches fl tc k := by
  intro fuel
  induction fuel with
  | zero =>
      intro n m h
      simp [searchAux] at h
  | succ f ih =>
      intro n m h
      simp only [searchAux] at h
      split_ifs at h with hr
      · obtain rfl : n = m := Option.some.inj h
        refine ⟨le_refl n, hr, ?_⟩
        intro k hk1 hk2
        exact absurd (lt_of_le_of_lt hk1 hk2) (lt_irrefl n)
      · obtain ⟨h1, h2, h3⟩ := ih (n + 1) m h
        refine ⟨le_trans (Nat.le_succ n) h1, h2, ?_⟩
        intro k hk1 hk2
        rcases Nat.eq_or_lt_of_le hk1 with heq | hlt
        · subst heq
          exact hr
        · exact h3 k hlt hk2

theorem searchAux_none_spec (fl : FlaskData) (tc : ℚ) :
    ∀ fuel n, searchAux fl tc fuel n = none →
      ∀ k, n ≤ k → k < n + fuel → ¬ reaches fl tc k := by
  intro fuel
  induction fuel with
  | zero =>
      intro n _ k hk1 hk2
      omega
  | succ f ih =>
      intro n h k hk1 hk2
      simp only [searchAux] at h
      split_ifs at h with hr
      rcases Nat.eq_or_lt_of_le hk1 with heq | hlt
      · subst heq
        exact hr
      · exact ih (n + 1) h k hlt (by omega)

/-- 48 flasks reach any clamped target in the very first passage, for any
vessel with at least the T25 confluent capacity. -/
theorem reaches_of_big (fl : FlaskData) (tc : ℚ) (hmax : 5000000 ≤ fl.max_cells)
    (htc : tc ≤ 240000000) : reaches fl tc 48 := by
  have hp1 : tc ≤ p1Of fl 48 := by
    unfold p1Of
    push_cast
    nlinarith
  unfold reaches simulate
  rw [if_pos hp1]
  exact hp1

theorem searchN0_isSome_of_reaches (fl : FlaskData) (tc : ℚ) (k : ℕ)
    (hk1 : 1 ≤ k) (hk2 : k ≤ 200) (h : reaches fl tc k) :
    ∃ m, searchN0 fl tc = some m := by
  cases hs : searchN0 fl tc with
  | some m => exact ⟨m, rfl⟩
  | none =>
      have hs2 : searchAux fl tc 200 1 = none := hs
      exact absurd h (searchAux_none_spec fl tc 200 1 hs2 k hk1 (by omega))

theorem planFor_fst_pos (fl : FlaskData) (tc : ℚ) : 1 ≤ (planFor fl tc).1 := by
  cases hs : searchN0 fl tc with
  | none => simp [planFor, hs]
  | some m =>
      have h1 := (searchAux_some_spec fl tc 200 1 m hs).1
      simp [planFor, hs]
      omega

theorem simulate_p1 (fl : FlaskData) (tc : ℚ) (N0 : ℕ) :
    (simulate fl tc N0).p1 = p1Of fl N0 := by
  unfold simulate
  split_ifs <;> rfl

theorem simulate_multi (fl : FlaskData) (tc : ℚ) (N0 : ℕ)
    (h : ¬ tc ≤ p1Of fl N0) :
    (simulate fl tc N0).f2 = nextFlasks fl (p1Of fl N0) ∧
    (simulate fl tc N0).p2 = yieldOf fl (nextFlasks fl (p1Of fl N0)) := by
  unfold simulate
  rw [if_neg h]
  split_ifs <;> exact ⟨rfl, rfl⟩

/-- One re-seeding step never shrinks the yield, and always uses at least one
flask, whenever the vessel data is sane (`0 < seeding < confluent`). -/
theorem yield_step_ge (fl : FlaskData) (prev : ℚ) (h0 : 0 < prev)
    (hi : 0 < fl.initial_cells) (him : fl.initial_cells < fl.max_cells) :
    prev ≤ yieldOf fl (nextFlasks fl prev) ∧ 1 ≤ nextFlasks fl prev := by
  have hmax : 0 < fl.max_cells := lt_trans hi him
  have hq : 0 < (prev / fl.initial_cells) * SAFETY_FACTOR := by
    have hdiv : 0 < prev / fl.initial_cells := div_pos h0 hi
    have hsf : (0:ℚ) < SAFETY_FACTOR := by norm_num [SAFETY_FACTOR]
    exact mul_pos hdiv hsf
  have hceil : (prev / fl.initial_cells) * SAFETY_FACTOR ≤ ((nextFlasks fl prev : ℤ) : ℚ) :=
    Int.le_ceil _
  have hflask : 1 ≤ nextFlasks fl prev := by
    have hlt : (0:ℚ) < ((nextFlasks fl prev : ℤ) : ℚ) := lt_of_lt_of_le hq hceil
    have hlt2 : (0:ℤ) < nextFlasks fl prev := by exact_mod_cast hlt
    omega
  refine ⟨?_, hflask⟩
  unfold yieldOf
  have h1 : (prev / fl.initial_cells) * SAFETY_FACTOR * fl.max_cells ≤
      ((nextFlasks fl prev : ℤ) : ℚ) * fl.max_cells :=
    mul_le_mul_of_nonneg_right hceil hmax.le
  have h2 : prev ≤ (prev / fl.initial_cells) * SAFETY_FACTOR * fl.max_cells := by
    rw [div_mul_eq_mul_div, div_mul_eq_mul_div, le_div_iff₀ hi]
    have hmm : prev * fl.initial_cells < prev * fl.max_cells :=
      mul_lt_mul_of_pos_left him h0
    have hpm : 0 < prev * fl.max_cells := mul_pos h0 hmax
    norm_num [SAFETY_FACTOR]
    nlinarith
  exact le_trans h2 h1

/-- Yields along one simulated candidate are monotone, and the later flask
counts are positive whenever their passage is actually computed. -/
theorem sim_chain (fl : FlaskData) (tc : ℚ) (N0 : ℕ) (hN : 1 ≤ N0)
    (hi : 0 < fl.initial_cells) (him : fl.initial_cells < fl.max_cells) :
    (simulate fl tc N0).p1 ≤ (simulate fl tc N0).p2 ∧
    (simulate fl tc N0).p2 ≤ (simulate fl tc N0).p3 ∧
    0 < (simulate fl tc N0).p1 ∧
    (¬ tc ≤ p1Of fl N0 → 1 ≤ (simulate fl tc N0).f2) ∧
    (¬ tc ≤ p1Of fl N0 → ¬ tc ≤ yieldOf fl (nextFlasks fl (p1Of fl N0)) →
      1 ≤ (simulate fl tc N0).f3) := by
  have hmax : 0 < fl.max_cells := lt_trans hi him
  have hp1 : 0 < p1Of fl N0 := by
    unfold p1Of
    have hN' : (0:ℚ) < (N0 : ℚ) := by exact_mod_cast hN
    exact mul_pos hN' hmax
  have hstep1 := yield_step_ge fl (p1Of fl N0) hp1 hi him
  unfold simulate
  split_ifs with h1 h2
  · exact ⟨le_refl _, le_refl _, hp1, fun hc => absurd h1 hc, fun hc _ => absurd h1 hc⟩
  · exact ⟨hstep1.1, le_refl _, hp1, fun _ => hstep1.2, fun _ hc => absurd h2 hc⟩
  · have hp2 : 0 < yieldOf fl (nextFlasks fl (p1Of fl N0)) := by
      unfold yieldOf
      have h1' : (1:ℚ) ≤ ((nextFlasks fl (p1Of fl N0) : ℤ) : ℚ) := by
        exact_mod_cast hstep1.2
      nlinarith
    have hstep2 := yield_step_ge fl (yieldOf fl (nextFlasks fl (p1Of fl N0))) hp2 hi him
    exact ⟨hstep1.1, hstep2.1, hp1, fun _ => hstep1.2, fun _ _ => hstep2.2⟩

/-! ## Evaluation lemmas for concrete scenarios -/

theorem SAFETY_FACTOR_eq : SAFETY_FACTOR = 6/5 := rfl

theorem T25_media : flaskT25.media = 5 := rfl

theorem T25_init : flaskT25.initial_cells = 1250000 := by norm_num [flaskT25]

theorem T25_max : flaskT25.max_cells = 5000000 := by norm_num [flaskT25]

theorem T75_media : flaskT75.media = 15 := rfl

theorem T75_init : flaskT75.initial_cells = 3750000 := by norm_num [flaskT75]

theorem T75_max : flaskT75.max_cells = 15000000 := by norm_num [flaskT75]

theorem flaskLookup_T25 : flaskLookup "T25" = flaskT25 := by simp [flaskLookup]

theorem flaskLookup_T75 : flaskLookup "T75" = flaskT75 := by simp [flaskLookup]

theorem flaskLookup_fallback : flaskLookup "standard-medium" = flaskT75 := by
  simp [flaskLookup]

theorem sepYield_H : sepYieldLookup "Haemonetics" = 1000000 := by simp [sepYieldLookup]

theorem searchAux_succ (fl : FlaskData) (tc : ℚ) (fuel n : ℕ) :
    searchAux fl tc (fuel + 1) n =
      if reaches fl tc n then some n else searchAux fl tc fuel (n + 1) := rfl

theorem searchAux_eq_none_of (fl : FlaskData) (tc : ℚ) :
    ∀ fuel n, (∀ k, n ≤ k → k < n + fuel → ¬ reaches fl tc k) →
      searchAux fl tc fuel n = none := by
  intro fuel
  induction fuel with
  | zero => intro n _; rfl
  | succ f ih =>
      intro n h
      rw [searchAux_succ, if_neg (h n (le_refl n) (by omega))]
      exact ih (n + 1) (fun k hk1 hk2 => h k (by omega) (by omega))

theorem nextFlasks_T75_15M : nextFlasks flaskT75 15000000 = 5 := by
  unfold nextFlasks
  rw [T75_init, SAFETY_FACTOR_eq, Int.ceil_eq_iff]
  norm_num

theorem nextFlasks_T25_5M : nextFlasks flaskT25 5000000 = 5 := by
  unfold nextFlasks
  rw [T25_init, SAFETY_FACTOR_eq, Int.ceil_eq_iff]
  norm_num

theorem nextFlasks_T25_25M : nextFlasks flaskT25 25000000 = 24 := by
  unfold nextFlasks
  rw [T25_init, SAFETY_FACTOR_eq, Int.ceil_eq_iff]
  norm_num

theorem nextFlasks_T25_10M : nextFlasks flaskT25 10000000 = 10 := by
  unfold nextFlasks
  rw [T25_init, SAFETY_FACTOR_eq, Int.ceil_eq_iff]
  norm_num

theorem nextFlasks_T25_50M : nextFlasks flaskT25 50000000 = 48 := by
  unfold nextFlasks
  rw [T25_init, SAFETY_FACTOR_eq, Int.ceil_eq_iff]
  norm_num

theorem sim_T75_70M_1 : simulate flaskT75 70000000 1 =
    ⟨15000000, 5, 75000000, 0, 75000000⟩ := by
  norm_num [simulate, p1Of, yieldOf, T75_max, nextFlasks_T75_15M]

theorem sim_T75_15M_1 : simulate flaskT75 15000000 1 =
    ⟨15000000, 0, 15000000, 0, 15000000⟩ := by
  norm_num [simulate, p1Of, T75_max]

theorem sim_T25_140M_1 : simulate flaskT25 140000000 1 =
    ⟨5000000, 5, 25000000, 24, 120000000⟩ := by
  norm_num [simulate, p1Of, yieldOf, T25_max, nextFlasks_T25_5M, nextFlasks_T25_25M]

theorem sim_T25_140M_2 : simulate flaskT25 140000000 2 =
    ⟨10000000, 10, 50000000, 48, 240000000⟩ := by
  norm_num [simulate, p1Of, yieldOf, T25_max, nextFlasks_T25_10M, nextFlasks_T25_50M]

theorem reaches_T75_70M_1 : reaches flaskT75 70000000 1 := by
  unfold reaches
  rw [sim_T75_70M_1]
  norm_num

theorem reaches_T75_15M_1 : reaches flaskT75 15000000 1 := by
  unfold reaches
  rw [sim_T75_15M_1]

theorem not_reaches_T25_140M_1 : ¬ reaches flaskT25 140000000 1 := by
  unfold reaches
  rw [sim_T25_140M_1]
  norm_num

theorem reaches_T25_140M_2 : reaches flaskT25 140000000 2 := by
  unfold reaches
  rw [sim_T25_140M_2]
  norm_num

theorem searchN0_T75_70M : searchN0 flaskT75 70000000 = some 1 := by
  unfold searchN0
  rw [show (200:ℕ) = 199 + 1 by norm_num, searchAux_succ, if_pos reaches_T75_70M_1]

theorem searchN0_T75_15M : searchN0 flaskT75 15000000 = some 1 := by
  unfold searchN0
  rw [show (200:ℕ) = 199 + 1 by norm_num, searchAux_succ, if_pos reaches_T75_15M_1]

theorem searchN0_T25_140M : searchN0 flaskT25 140000000 = some 2 := by
  unfold searchN0
  rw [show (200:ℕ) = 199 + 1 by norm_num, searchAux_succ,
    if_neg not_reaches_T25_140M_1]
  norm_num
  rw [show (199:ℕ) = 198 + 1 by norm_num, searchAux_succ, if_pos reaches_T25_140M_2]

theorem planFor_T75_70M : planFor flaskT75 70000000 =
    (1, ⟨15000000, 5, 75000000, 0, 75000000⟩) := by
  unfold planFor
  rw [searchN0_T75_70M]
  simp [sim_T75_70M_1]

theorem planFor_T75_15M : planFor flaskT75 15000000 =
    (1, ⟨15000000, 0, 15000000, 0, 15000000⟩) := by
  unfold planFor
  rw [searchN0_T75_15M]
  simp [sim_T75_15M_1]

theorem planFor_T25_140M : planFor flaskT25 140000000 =
    (2, ⟨10000000, 10, 50000000, 48, 240000000⟩) := by
  unfold planFor
  rw [searchN0_T25_140M]
  simp [sim_T25_140M_2]

/-- Scenario weight 70, dose 1.0, Haemonetics, unknown vessel identifier
(falls back to T75 values): full result record. -/
theorem calc_eval_scenario3 :
    calculate_msc_therapy 70 1 "Haemonetics" "standard-medium" false =
      ⟨70, 1, 2, 21, 90, 3750000, 70000000, 15000000, 5, 75000000, 0, 75000000, 0⟩ := by
  have htc : clampDose 1 * clampWeight 70 * 1000000 = 70000000 := by
    norm_num [clampDose, clampWeight]
  simp only [calculate_msc_therapy, calc_core, flaskLookup_fallback, sepYield_H, htc,
    planFor_T75_70M, MIN_PASSAGE1_DAYS, ADDITIONAL_PASSAGE_DAYS, PLASMA_PERCENTAGE]
  norm_num [T75_init, T75_media]

/-- Scenario weight 70, dose 2.0, Haemonetics, T25: full result record
(three passages with 2, 10 and 48 flasks). -/
theorem calc_eval_scenario2 :
    calculate_msc_therapy 70 2 "Haemonetics" "T25" false =
      ⟨140, 2, 3, 28, 80, 1250000, 140000000, 10000000, 10, 50000000, 48, 240000000, 0⟩ := by
  have htc : clampDose 2 * clampWeight 70 * 1000000 = 140000000 := by
    norm_num [clampDose, clampWeight]
  simp only [calculate_msc_therapy, calc_core, flaskLookup_T25, sepYield_H, htc,
    planFor_T25_140M, MIN_PASSAGE1_DAYS, ADDITIONAL_PASSAGE_DAYS, PLASMA_PERCENTAGE]
  norm_num [T25_init, T25_media]

/-- Scenario weight 30, dose 0.5, Haemonetics, T75: a single-passage plan
(the target 15e6 is met exactly by one flask). -/
theorem calc_eval_scenario6 :
    calculate_msc_therapy 30 (1/2) "Haemonetics" "T75" false =
      ⟨50, 1, 1, 14, 60, 3750000, 15000000, 15000000, 0, 15000000, 0, 15000000, 0⟩ := by
  have htc : clampDose (1/2) * clampWeight 30 * 1000000 = 15000000 := by
    norm_num [clampDose, clampWeight]
  simp only [calculate_msc_therapy, calc_core, flaskLookup_T75, sepYield_H, htc,
    planFor_T75_15M, MIN_PASSAGE1_DAYS, ADDITIONAL_PASSAGE_DAYS, PLASMA_PERCENTAGE]
  norm_num [T75_init, T75_media]

/-- The core computation at separator yield 0 (the `except` fallback path):
a full plan is still produced, with the 50 mL fallback collection volume. -/
theorem calc_eval_scenario5 : calc_core 70 1 0 flaskT75 false =
    ⟨50, 1, 2, 21, 90, 3750000, 70000000, 15000000, 5, 75000000, 0, 75000000, 0⟩ := by
  have htc : clampDose 1 * clampWeight 70 * 1000000 = 70000000 := by
    norm_num [clampDose, clampWeight]
  simp only [calc_core, htc, planFor_T75_70M, MIN_PASSAGE1_DAYS,
    ADDITIONAL_PASSAGE_DAYS, PLASMA_PERCENTAGE]
  norm_num [T75_init, T75_media]

/-! ## Claim theorems -/

/-- C10: the engine clamps out-of-range numeric inputs itself: the result at
any `(weight, dose)` equals the result at the clamped
`(min (max weight 30) 120, min (max dose 0.5) 2)`. -/
theorem claim10_clamping (w d : ℚ) (sep ft : String) (pp : Bool) :
    calculate_msc_therapy w d sep ft pp =
      calculate_msc_therapy (min (max w 30) 120) (min (max d (1/2)) 2) sep ft pp := by
  have hw : clampWeight (min (max w 30) 120) = clampWeight w := by
    unfold clampWeight
    rcases le_total w 30 with h | h <;> rcases le_total w 120 with h2 | h2 <;>
      simp only [max_def, min_def] <;> split_ifs <;> first | rfl | linarith
  have hd : clampDose (min (max d (1/2)) 2) = clampDose d := by
    unfold clampDose
    rcases le_total d (1/2) with h | h <;> rcases le_total d 2 with h2 | h2 <;>
      simp only [max_def, min_def] <;> split_ifs <;> first | rfl | linarith
  unfold calculate_msc_therapy calc_core
  rw [hw, hd]

/-- C9: the resolved target is `(clamped dose) * (clamped weight) * 1e6` and
the collection volume is the exact quotient by the separator yield clamped
below by the 50 mL floor, whenever the resolved yield is positive. -/
theorem claim9_target_resolution (w d : ℚ) (sep ft : String) (pp : Bool)
    (h : 0 < sepYieldLookup sep) :
    (calculate_msc_therapy w d sep ft pp).target_cells =
      clampDose d * clampWeight w * 1000000 ∧
    (calculate_msc_therapy w d sep ft pp).pbsc_ml =
      max 50 ((calculate_msc_therapy w d sep ft pp).target_cells / sepYieldLookup sep) := by
  refine ⟨rfl, ?_⟩
  have hne : sepYieldLookup sep ≠ 0 := ne_of_gt h
  show max 50 (if sepYieldLookup sep = 0 then 50
      else clampDose d * clampWeight w * 1000000 / sepYieldLookup sep) = _
  rw [if_neg hne]
  rfl

/-- Witness for C9 at weight 70, dose 1.0, Haemonetics, T75. -/
theorem claim9_witness :
    (calculate_msc_therapy 70 1 "Haemonetics" "T75" false).target_cells =
      clampDose 1 * clampWeight 70 * 1000000 ∧
    (calculate_msc_therapy 70 1 "Haemonetics" "T75" false).pbsc_ml =
      max 50 ((calculate_msc_therapy 70 1 "Haemonetics" "T75" false).target_cells /
        sepYieldLookup "Haemonetics") :=
  claim9_target_resolution 70 1 "Haemonetics" "T75" false (by decide)

/-- C7: whenever a candidate misses the target at passage 1, the passage-2
flask count and yield follow the safety-factor re-seeding formula, and the
same formula produces passage 3 when passage 2 also misses. -/
theorem claim7_reseeding (ft : String) (total : ℚ) (N0 : ℕ)
    (h : (N0 : ℚ) * (flaskLookup ft).max_cells < total) :
    SAFETY_FACTOR = 6/5 ∧
    (simulate (flaskLookup ft) total N0).f2 =
      ⌈((simulate (flaskLookup ft) total N0).p1 / (flaskLookup ft).initial_cells) *
        SAFETY_FACTOR⌉ ∧
    (simulate (flaskLookup ft) total N0).p2 =
      ((simulate (flaskLookup ft) total N0).f2 : ℚ) * (flaskLookup ft).max_cells ∧
    ((simulate (flaskLookup ft) total N0).p2 < total →
      (simulate (flaskLookup ft) total N0).f3 =
        ⌈((simulate (flaskLookup ft) total N0).p2 / (flaskLookup ft).initial_cells) *
          SAFETY_FACTOR⌉ ∧
      (simulate (flaskLookup ft) total N0).p3 =
        ((simulate (flaskLookup ft) total N0).f3 : ℚ) * (flaskLookup ft).max_cells) := by
  have h1 : ¬ total ≤ p1Of (flaskLookup ft) N0 := not_le.mpr (by unfold p1Of; exact h)
  refine ⟨rfl, ?_⟩
  unfold simulate
  rw [if_neg h1]
  by_cases h2 : total ≤ yieldOf (flaskLookup ft) (nextFlasks (flaskLookup ft) (p1Of (flaskLookup ft) N0))
  · rw [if_pos h2]
    refine ⟨rfl, rfl, fun hc => absurd h2 (not_le.mpr hc)⟩
  · rw [if_neg h2]
    exact ⟨rfl, rfl, fun _ => ⟨rfl, rfl⟩⟩

/-- Witness for C7: T25, target 140e6, candidate 1 misses at passages 1 and 2. -/
theorem claim7_witness :
    SAFETY_FACTOR = 6/5 ∧
    (simulate (flaskLookup "T25") 140000000 1).f2 =
      ⌈((simulate (flaskLookup "T25") 140000000 1).p1 / (flaskLookup "T25").initial_cells) *
        SAFETY_FACTOR⌉ ∧
    (simulate (flaskLookup "T25") 140000000 1).p2 =
      ((simulate (flaskLookup "T25") 140000000 1).f2 : ℚ) * (flaskLookup "T25").max_cells ∧
    ((simulate (flaskLookup "T25") 140000000 1).p2 < 140000000 →
      (simulate (flaskLookup "T25") 140000000 1).f3 =
        ⌈((simulate (flaskLookup "T25") 140000000 1).p2 / (flaskLookup "T25").initial_cells) *
          SAFETY_FACTOR⌉ ∧
      (simulate (flaskLookup "T25") 140000000 1).p3 =
        ((simulate (flaskLookup "T25") 140000000 1).f3 : ℚ) * (flaskLookup "T25").max_cells) :=
  claim7_reseeding "T25" 140000000 1 (by rw [flaskLookup_T25, T25_max]; norm_num)

/-- C2 (amended): the code charges every medium change at the initial flask
count: `total_media = initial_flasks * media * (4 + (passages_used - 1) * 2)`. -/
theorem claim2_media_formula (w d : ℚ) (sep ft : String) (pp : Bool) :
    (calculate_msc_therapy w d sep ft pp).total_media =
      ((calculate_msc_therapy w d sep ft pp).initial_flasks : ℚ) *
        (flaskLookup ft).media *
        ((4 + ((calculate_msc_therapy w d sep ft pp).passages_used - 1) * 2 : ℕ) : ℚ) :=
  rfl

/-- C2 counterexample: weight 70, dose 2.0, T25 gives a 3-passage plan with
2/10/48 flasks; the code reports 80 mL while the spec's per-passage sum is
620 mL. -/
theorem claim2_counterexample :
    (calculate_msc_therapy 70 2 "Haemonetics" "T25" false).passages_used = 3 ∧
    (calculate_msc_therapy 70 2 "Haemonetics" "T25" false).total_media = 80 ∧
    specTotalMedia (calculate_msc_therapy 70 2 "Haemonetics" "T25" false)
      (flaskLookup "T25") = 620 ∧
    (calculate_msc_therapy 70 2 "Haemonetics" "T25" false).total_media ≠
      specTotalMedia (calculate_msc_therapy 70 2 "Haemonetics" "T25" false)
        (flaskLookup "T25") := by
  rw [calc_eval_scenario2, flaskLookup_T25]
  refine ⟨rfl, rfl, ?_, ?_⟩
  · norm_num [specTotalMedia, T25_media]
  · norm_num [specTotalMedia, T25_media]

/-- C3 counterexample: with the actual catalog, "standard-medium" resolves to
the Default (T75) entry and the planner returns 1 flask and 2 passages, not
9 flasks in a single passage. -/
theorem claim3_counterexample :
    (calculate_msc_therapy 70 1 "Haemonetics" "standard-medium" false).initial_flasks = 1 ∧
    (calculate_msc_therapy 70 1 "Haemonetics" "standard-medium" false).initial_flasks ≠ 9 ∧
    (calculate_msc_therapy 70 1 "Haemonetics" "standard-medium" false).passages_used ≠ 1 := by
  rw [calc_eval_scenario3]
  refine ⟨rfl, by norm_num, by norm_num⟩

/-- C3 (amended): the unknown identifier falls back to the Default vessel
(T75 values); target is 70e6 cells; the planner returns N0 = 1 with two
passages (15e6 then 5 flasks giving 75e6 ≥ 70e6), 21 days, 70 mL collection. -/
theorem claim3_scenario :
    flaskLookup "standard-medium" = flaskT75 ∧
    (calculate_msc_therapy 70 1 "Haemonetics" "standard-medium" false).target_cells
      = 70000000 ∧
    (calculate_msc_therapy 70 1 "Haemonetics" "standard-medium" false).initial_flasks = 1 ∧
    (calculate_msc_therapy 70 1 "Haemonetics" "standard-medium" false).passages_used = 2 ∧
    (calculate_msc_therapy 70 1 "Haemonetics" "standard-medium" false).total_days = 21 ∧
    (calculate_msc_therapy 70 1 "Haemonetics" "standard-medium" false).flasks_p2 = 5 ∧
    (calculate_msc_therapy 70 1 "Haemonetics" "standard-medium" false).passage2_yield
      = 75000000 ∧
    (calculate_msc_therapy 70 1 "Haemonetics" "standard-medium" false).pbsc_ml = 70 := by
  rw [calc_eval_scenario3]
  exact ⟨flaskLookup_fallback, rfl, rfl, rfl, rfl, rfl, rfl, rfl⟩

/-- C5 (amended): a non-positive separator yield does not abort the
computation; the collection volume silently falls back to the 50 mL floor
(zero yield through the caught division error, negative yield through the
`max` clamp) and a full plan is still returned. -/
theorem claim5_silent_fallback (w d sy : ℚ) (fl : FlaskData) (pp : Bool)
    (h : sy ≤ 0) : (calc_core w d sy fl pp).pbsc_ml = 50 := by
  have htc : 0 < clampDose d * clampWeight w * 1000000 := (total_cells_bounds w d).1
  show max 50 (if sy = 0 then 50
      else clampDose d * clampWeight w * 1000000 / sy) = 50
  rcases lt_or_eq_of_le h with hlt | heq
  · rw [if_neg (ne_of_lt hlt)]
    have hneg : clampDose d * clampWeight w * 1000000 / sy < 0 :=
      div_neg_of_pos_of_neg htc hlt
    exact max_eq_left (by linarith)
  · rw [if_pos heq]
    exact max_self 50

/-- Witness for C5 at yield 0. -/
theorem claim5_witness : (calc_core 70 1 0 flaskT75 false).pbsc_ml = 50 :=
  claim5_silent_fallback 70 1 0 flaskT75 false (le_refl 0)

/-- C5 counterexample: at separator yield 0 the computation does not abort:
a complete, normal plan is returned, with the silent 50 mL fallback. -/
theorem claim5_counterexample :
    (calc_core 70 1 0 flaskT75 false).pbsc_ml = 50 ∧
    (calc_core 70 1 0 flaskT75 false).initial_flasks = 1 ∧
    (calc_core 70 1 0 flaskT75 false).passages_used = 2 ∧
    (calc_core 70 1 0 flaskT75 false).passage2_yield = 75000000 := by
  rw [calc_eval_scenario5]
  exact ⟨rfl, rfl, rfl, rfl⟩

/-- C6 (amended): when a later passage is unused (its flask count is 0) and
the per-flask seeding count is positive, its curve segment is identically
zero — flat at the segment's start value `0 * initial_cells`, not at the
passage's known output value. -/
theorem claim6_degenerate_flat (r : Results) (t : ℝ) (h2 : r.flasks_p2 = 0)
    (h3 : r.flasks_p3 = 0) (hi : 0 < r.initial_cells) :
    growth2 r t = 0 ∧ growth3 r t = 0 := by
  have hs2 : start2 r = 0 := by
    unfold start2
    rw [if_pos hi, h2]
    norm_num
  have hs3 : start3 r = 0 := by
    unfold start3
    rw [if_pos hi, h3]
    norm_num
  constructor
  · unfold growth2
    rw [hs2]
    norm_num
  · unfold growth3
    rw [hs3]
    norm_num

/-- Witness for C6: the single-passage plan of `calc_eval_scenario6`. -/
theorem claim6_witness :
    growth2 (calculate_msc_therapy 30 (1/2) "Haemonetics" "T75" false) 14 = 0 ∧
    growth3 (calculate_msc_therapy 30 (1/2) "Haemonetics" "T75" false) 14 = 0 :=
  claim6_degenerate_flat (calculate_msc_therapy 30 (1/2) "Haemonetics" "T75" false) 14
    (by rw [calc_eval_scenario6]) (by rw [calc_eval_scenario6])
    (by rw [calc_eval_scenario6]; norm_num)

/-- C6 counterexample: in the single-passage plan the second segment samples
are 0, not the passage's known output value 15e6. -/
theorem claim6_counterexample :
    growth2 (calculate_msc_therapy 30 (1/2) "Haemonetics" "T75" false) 14 = 0 ∧
    (calculate_msc_therapy 30 (1/2) "Haemonetics" "T75" false).passage2_yield
      = 15000000 ∧
    growth2 (calculate_msc_therapy 30 (1/2) "Haemonetics" "T75" false) 14 ≠
      ((calculate_msc_therapy 30 (1/2) "Haemonetics" "T75" false).passage2_yield : ℝ) := by
  have hg : growth2 (calculate_msc_therapy 30 (1/2) "Haemonetics" "T75" false) 14 = 0 := by
    have hs2 : start2 (calculate_msc_therapy 30 (1/2) "Haemonetics" "T75" false) = 0 := by
      rw [calc_eval_scenario6]
      unfold start2
      norm_num
    unfold growth2
    rw [hs2]
    norm_num
  refine ⟨hg, ?_, ?_⟩
  · rw [calc_eval_scenario6]
  · rw [hg, calc_eval_scenario6]
    norm_num

/-- No candidate up to 200 T25 flasks reaches a 1e11-cell target within
three passages: coarse upper bounds on each passage's yield. -/
theorem not_reaches_T25_big (n : ℕ) (hn : n ≤ 200) :
    ¬ reaches flaskT25 100000000000 n := by
  have hn' : (n:ℚ) ≤ 200 := by exact_mod_cast hn
  have hn0 : (0:ℚ) ≤ (n:ℚ) := Nat.cast_nonneg n
  unfold reaches simulate
  set a := p1Of flaskT25 n with ha_def
  set f2 := nextFlasks flaskT25 a with hf2_def
  set b := yieldOf flaskT25 f2 with hb_def
  set f3 := nextFlasks flaskT25 b with hf3_def
  set c := yieldOf flaskT25 f3 with hc_def
  have hA : a ≤ 1000000000 := by
    rw [ha_def]
    unfold p1Of
    rw [T25_max]
    nlinarith
  have hf2b : (f2:ℚ) < 961 := by
    have hcl := Int.ceil_lt_add_one (a / 1250000 * (6/5))
    have hle : a / 1250000 * (6/5) ≤ 960 := by
      rw [div_mul_eq_mul_div, div_le_iff₀ (show (0:ℚ) < 1250000 by norm_num)]
      linarith
    rw [hf2_def]
    unfold nextFlasks
    rw [T25_init, SAFETY_FACTOR_eq]
    linarith
  have hB : b < 4805000000 := by
    rw [hb_def]
    unfold yieldOf
    rw [T25_max]
    linarith
  have hf3b : (f3:ℚ) < 4614 := by
    have hcl := Int.ceil_lt_add_one (b / 1250000 * (6/5))
    have hle : b / 1250000 * (6/5) ≤ 4613 := by
      rw [div_mul_eq_mul_div, div_le_iff₀ (show (0:ℚ) < 1250000 by norm_num)]
      linarith
    rw [hf3_def]
    unfold nextFlasks
    rw [T25_init, SAFETY_FACTOR_eq]
    linarith
  have hC : c < 100000000000 := by
    rw [hc_def]
    unfold yieldOf
    rw [T25_max]
    linarith
  split_ifs with h1 h2
  · exact absurd h1 (not_le.mpr (lt_of_le_of_lt hA (by norm_num)))
  · exact absurd h2 (not_le.mpr (lt_trans hB (by norm_num)))
  · exact not_le.mpr hC

theorem searchN0_T25_big : searchN0 flaskT25 100000000000 = none :=
  searchAux_eq_none_of flaskT25 100000000000 200 1
    (fun k _ hk2 => not_reaches_T25_big k (by omega))

/-- C4 (amended): when the search range is exhausted without reaching the
target, the planner returns the normal plan built from the maximum candidate
(200 flasks simulated through all passages), but the returned dictionary
carries no `target_met` key: the unmet target is only implicit in
`passage3_yield < target_cells`. -/
theorem claim4_exhausted_range (fl : FlaskData) (total : ℚ)
    (h : searchN0 fl total = none) :
    planFor fl total = (200, simulate fl total 200) ∧
    (simulate fl total 200).p3 < total ∧
    "target_met" ∉ resultKeys := by
  refine ⟨by simp [planFor, h], ?_, by simp [resultKeys]⟩
  have h2 : ¬ reaches fl total 200 :=
    searchAux_none_spec fl total 200 1 h 200 (by omega) (by omega)
  exact not_le.mp h2

/-- Witness for C4: a 1e11-cell target is unreachable with T25 flasks. -/
theorem claim4_witness :
    planFor flaskT25 100000000000 = (200, simulate flaskT25 100000000000 200) ∧
    (simulate flaskT25 100000000000 200).p3 < 100000000000 ∧
    "target_met" ∉ resultKeys :=
  claim4_exhausted_range flaskT25 100000000000 searchN0_T25_big

/-- C4 counterexample: the returned dictionary has no `target_met` key at
all, so no `target_met = false` flag distinguishes the degraded plan. -/
theorem claim4_counterexample : "target_met" ∉ resultKeys := by
  simp [resultKeys]

/-- C1: the returned initial flask count is minimal — no smaller candidate in
the search range reaches the target within `MAX_PASSAGES` passages — and the
reported passage count is the smallest passage index whose simulated yield
meets the target. -/
theorem claim1_minimality (w d : ℚ) (sep ft : String) (pp : Bool) :
    (∀ m : ℕ, 1 ≤ m →
        m < (calculate_msc_therapy w d sep ft pp).initial_flasks →
        ¬ reaches (flaskLookup ft)
          (calculate_msc_therapy w d sep ft pp).target_cells m) ∧
    (calculate_msc_therapy w d sep ft pp).target_cells ≤
      simYield
        (simulate (flaskLookup ft) (calculate_msc_therapy w d sep ft pp).target_cells
          (calculate_msc_therapy w d sep ft pp).initial_flasks)
        (calculate_msc_therapy w d sep ft pp).passages_used ∧
    ∀ j : ℕ, 1 ≤ j → j < (calculate_msc_therapy w d sep ft pp).passages_used →
      ¬ (calculate_msc_therapy w d sep ft pp).target_cells ≤
        simYield
          (simulate (flaskLookup ft) (calculate_msc_therapy w d sep ft pp).target_cells
            (calculate_msc_therapy w d sep ft pp).initial_flasks) j := by
  have hb := total_cells_bounds w d
  have hfl := flaskLookup_spec ft
  have h48 : reaches (flaskLookup ft) (clampDose d * clampWeight w * 1000000) 48 :=
    reaches_of_big _ _ hfl.2.2.1 hb.2
  obtain ⟨m, hm⟩ :=
    searchN0_isSome_of_reaches (flaskLookup ft) (clampDose d * clampWeight w * 1000000)
      48 (by omega) (by omega) h48
  obtain ⟨hm1, hm2, hm3⟩ :=
    searchAux_some_spec (flaskLookup ft) (clampDose d * clampWeight w * 1000000) 200 1 m hm
  have htc : (calculate_msc_therapy w d sep ft pp).target_cells =
      clampDose d * clampWeight w * 1000000 := rfl
  have hn0 : (calculate_msc_therapy w d sep ft pp).initial_flasks = m := by
    show (planFor (flaskLookup ft) (clampDose d * clampWeight w * 1000000)).1 = m
    simp [planFor, hm]
  have hpu : (calculate_msc_therapy w d sep ft pp).passages_used =
      (if clampDose d * clampWeight w * 1000000 ≤
          (simulate (flaskLookup ft) (clampDose d * clampWeight w * 1000000) m).p1 then 1
       else if clampDose d * clampWeight w * 1000000 ≤
          (simulate (flaskLookup ft) (clampDose d * clampWeight w * 1000000) m).p2 then 2
       else 3) := by
    have hplan : (planFor (flaskLookup ft) (clampDose d * clampWeight w * 1000000)).2 =
        simulate (flaskLookup ft) (clampDose d * clampWeight w * 1000000) m := by
      simp [planFor, hm]
    show (if clampDose d * clampWeight w * 1000000 ≤
        (planFor (flaskLookup ft) (clampDose d * clampWeight w * 1000000)).2.p1 then 1
      else if clampDose d * clampWeight w * 1000000 ≤
        (planFor (flaskLookup ft) (clampDose d * clampWeight w * 1000000)).2.p2 then 2
      else 3) = _
    rw [hplan]
  rw [htc, hn0, hpu]
  refine ⟨fun k hk1 hk2 => hm3 k hk1 hk2, ?_, ?_⟩
  · by_cases h1 : clampDose d * clampWeight w * 1000000 ≤
        (simulate (flaskLookup ft) (clampDose d * clampWeight w * 1000000) m).p1
    · rw [if_pos h1]
      simpa [simYield] using h1
    · rw [if_neg h1]
      by_cases h2 : clampDose d * clampWeight w * 1000000 ≤
          (simulate (flaskLookup ft) (clampDose d * clampWeight w * 1000000) m).p2
      · rw [if_pos h2]
        simpa [simYield] using h2
      · rw [if_neg h2]
        simpa [simYield, reaches] using hm2
  · intro j hj1 hj2
    by_cases h1 : clampDose d * clampWeight w * 1000000 ≤
        (simulate (flaskLookup ft) (clampDose d * clampWeight w * 1000000) m).p1
    · rw [if_pos h1] at hj2
      omega
    · rw [if_neg h1] at hj2
      by_cases h2 : clampDose d * clampWeight w * 1000000 ≤
          (simulate (flaskLookup ft) (clampDose d * clampWeight w * 1000000) m).p2
      · rw [if_pos h2] at hj2
        have hj : j = 1 := by omega
        subst hj
        simpa [simYield] using h1
      · rw [if_neg h2] at hj2
        have hj : j = 1 ∨ j = 2 := by omega
        rcases hj with rfl | rfl
        · simpa [simYield] using h1
        · simpa [simYield] using h2

/-- C8: for every input (every catalog entry satisfies the positivity and
growth invariants), the reported per-passage yields are monotonically
non-decreasing, the initial flask count and the flask counts of the used
later passages are positive, and the passage count never exceeds
`MAX_PASSAGES`. -/
theorem claim8_plan_invariants (w d : ℚ) (sep ft : String) (pp : Bool) :
    (calculate_msc_therapy w d sep ft pp).passage1_yield ≤
      (calculate_msc_therapy w d sep ft pp).passage2_yield ∧
    (calculate_msc_therapy w d sep ft pp).passage2_yield ≤
      (calculate_msc_therapy w d sep ft pp).passage3_yield ∧
    1 ≤ (calculate_msc_therapy w d sep ft pp).initial_flasks ∧
    (2 ≤ (calculate_msc_therapy w d sep ft pp).passages_used →
      1 ≤ (calculate_msc_therapy w d sep ft pp).flasks_p2) ∧
    (3 ≤ (calculate_msc_therapy w d sep ft pp).passages_used →
      1 ≤ (calculate_msc_therapy w d sep ft pp).flasks_p3) ∧
    (calculate_msc_therapy w d sep ft pp).passages_used ≤ MAX_PASSAGES := by
  have hfl := flaskLookup_spec ft
  have hn0pos : 1 ≤ (planFor (flaskLookup ft) (clampDose d * clampWeight w * 1000000)).1 :=
    planFor_fst_pos _ _
  have hchain := sim_chain (flaskLookup ft) (clampDose d * clampWeight w * 1000000)
    ((planFor (flaskLookup ft) (clampDose d * clampWeight w * 1000000)).1)
    hn0pos hfl.1 hfl.2.1
  have e1 : (calculate_msc_therapy w d sep ft pp).passage1_yield =
      (simulate (flaskLookup ft) (clampDose d * clampWeight w * 1000000)
        ((planFor (flaskLookup ft) (clampDose d * clampWeight w * 1000000)).1)).p1 := rfl
  have e2 : (calculate_msc_therapy w d sep ft pp).passage2_yield =
      (if 2 ≤ (calculate_msc_therapy w d sep ft pp).passages_used then
        (simulate (flaskLookup ft) (clampDose d * clampWeight w * 1000000)
          ((planFor (flaskLookup ft) (clampDose d * clampWeight w * 1000000)).1)).p2
       else
        (simulate (flaskLookup ft) (clampDose d * clampWeight w * 1000000)
          ((planFor (flaskLookup ft) (clampDose d * clampWeight w * 1000000)).1)).p1) := rfl
  have e3 : (calculate_msc_therapy w d sep ft pp).passage3_yield =
      (if 3 ≤ (calculate_msc_therapy w d sep ft pp).passages_used then
        (simulate (flaskLookup ft) (clampDose d * clampWeight w * 1000000)
          ((planFor (flaskLookup ft) (clampDose d * clampWeight w * 1000000)).1)).p3
       else
        (simulate (flaskLookup ft) (clampDose d * clampWeight w * 1000000)
          ((planFor (flaskLookup ft) (clampDose d * clampWeight w * 1000000)).1)).p2) := rfl
  have e4 : (calculate_msc_therapy w d sep ft pp).flasks_p2 =
      (simulate (flaskLookup ft) (clampDose d * clampWeight w * 1000000)
        ((planFor (flaskLookup ft) (clampDose d * clampWeight w * 1000000)).1)).f2 := rfl
  have e5 : (calculate_msc_therapy w d sep ft pp).flasks_p3 =
      (simulate (flaskLookup ft) (clampDose d * clampWeight w * 1000000)
        ((planFor (flaskLookup ft) (clampDose d * clampWeight w * 1000000)).1)).f3 := rfl
  have e7 : (calculate_msc_therapy w d sep ft pp).passages_used =
      (if clampDose d * clampWeight w * 1000000 ≤
          (simulate (flaskLookup ft) (clampDose d * clampWeight w * 1000000)
            ((planFor (flaskLookup ft) (clampDose d * clampWeight w * 1000000)).1)).p1
       then 1
       else if clampDose d * clampWeight w * 1000000 ≤
          (simulate (flaskLookup ft) (clampDose d * clampWeight w * 1000000)
            ((planFor (flaskLookup ft) (clampDose d * clampWeight w * 1000000)).1)).p2
       then 2 else 3) := rfl
  refine ⟨?_, ?_, ?_, ?_, ?_, ?_⟩
  · rw [e1, e2, e7]
    by_cases h1 : clampDose d * clampWeight w * 1000000 ≤
        (simulate (flaskLookup ft) (clampDose d * clampWeight w * 1000000)
          ((planFor (flaskLookup ft) (clampDose d * clampWeight w * 1000000)).1)).p1
    · rw [if_pos h1]
      norm_num
    · rw [if_neg h1]
      by_cases h2 : clampDose d * clampWeight w * 1000000 ≤
          (simulate (flaskLookup ft) (clampDose d * clampWeight w * 1000000)
            ((planFor (flaskLookup ft) (clampDose d * clampWeight w * 1000000)).1)).p2
      · rw [if_pos h2]
        simpa using hchain.1
      · rw [if_neg h2]
        simpa using hchain.1
  · rw [e2, e3, e7]
    by_cases h1 : clampDose d * clampWeight w * 1000000 ≤
        (simulate (flaskLookup ft) (clampDose d * clampWeight w * 1000000)
          ((planFor (flaskLookup ft) (clampDose d * clampWeight w * 1000000)).1)).p1
    · rw [if_pos h1]
      simpa using hchain.1
    · rw [if_neg h1]
      by_cases h2 : clampDose d * clampWeight w * 1000000 ≤
          (simulate (flaskLookup ft) (clampDose d * clampWeight w * 1000000)
            ((planFor (flaskLookup ft) (clampDose d * clampWeight w * 1000000)).1)).p2
      · rw [if_pos h2]
        norm_num
      · rw [if_neg h2]
        simpa using hchain.2.1
  · exact planFor_fst_pos (flaskLookup ft) (clampDose d * clampWeight w * 1000000)
  · intro hpu2
    rw [e7] at hpu2
    rw [e4]
    by_cases h1 : clampDose d * clampWeight w * 1000000 ≤
        (simulate (flaskLookup ft) (clampDose d * clampWeight w * 1000000)
          ((planFor (flaskLookup ft) (clampDose d * clampWeight w * 1000000)).1)).p1
    · rw [if_pos h1] at hpu2
      omega
    · rw [simulate_p1] at h1
      exact hchain.2.2.2.1 h1
  · intro hpu3
    rw [e7] at hpu3
    rw [e5]
    by_cases h1 : clampDose d * clampWeight w * 1000000 ≤
        (simulate (flaskLookup ft) (clampDose d * clampWeight w * 1000000)
          ((planFor (flaskLookup ft) (clampDose d * clampWeight w * 1000000)).1)).p1
    · rw [if_pos h1] at hpu3
      omega
    · rw [if_neg h1] at hpu3
      by_cases h2 : clampDose d * clampWeight w * 1000000 ≤
          (simulate (flaskLookup ft) (clampDose d * clampWeight w * 1000000)
            ((planFor (flaskLookup ft) (clampDose d * clampWeight w * 1000000)).1)).p2
      · rw [if_pos h2] at hpu3
        omega
      · rw [simulate_p1] at h1
        rw [(simulate_multi (flaskLookup ft) (clampDose d * clampWeight w * 1000000)
          ((planFor (flaskLookup ft) (clampDose d * clampWeight w * 1000000)).1) h1).2] at h2
        exact hchain.2.2.2.2 h1 h2
  · rw [e7]
    split_ifs <;> norm_num [MAX_PASSAGES]
